import Mathlib

/-
Verification of the schema-driven form renderer in
`src/fragments/formRenderer.tsx`.

The TypeScript module is shallowly embedded: JavaScript runtime values that
can sit in a form field (string | number | boolean) become the inductive
`Value`; `undefined` becomes `Option.none`; JS objects used as string-keyed
records become association lists built with an insert-or-overwrite
operation (`setKey`), preserving JS object-key insertion order.  Numeric
values are modelled as `Int`: every numeric literal appearing in the
program and in the specification's examples is an integer, and the string
to number coercion (`Number(s)`) is modelled on integer literals with
optional sign and surrounding whitespace (other strings coerce to NaN,
modelled as `none`).

The zod validators constructed by `createValidationSchema` are embedded as
`Checker := Option Value → Except String (Option Value)`: `Except.error m`
is a failed parse with issue message `m`, `Except.ok v` is a successful
parse whose payload is the (possibly coerced / trimmed) output value.
The zod default issue messages (used where the source attaches no custom
message) are those of zod v3: "Required" for a missing required string,
"Expected number, received nan" for a failed numeric coercion, and the
generic bound messages for `min` / `max` on numbers.  The zod `email`
pattern is the zod v3 email regular expression; the `contact` refinement
uses the two regular expressions written out in the source.
-/

namespace DynamicForm

/-- A JavaScript value that can occur as a form-field value:
`string | number | boolean` from the `FormField` type in the source. -/
inductive Value : Type
  | str (s : String)
  | num (n : Int)
  | bool (b : Bool)
deriving DecidableEq

/-- JS truthiness of a `Value` (`!!v` and `v || fallback` in the source):
the empty string, the number 0 and `false` are falsy. -/
def truthy : Value → Bool
  | .str s => decide (s ≠ "")
  | .num n => decide (n ≠ 0)
  | .bool b => b

/-- JS truthiness of a possibly absent value (`undefined` is falsy). -/
def truthyOpt : Option Value → Bool
  | none => false
  | some v => truthy v

/-- The `FormField` type of the source (lines 13-22).  A missing optional
property is `none`; a missing `required` / `disabled` flag behaves exactly
like `false` everywhere the source reads it, so both are modelled as
`Bool` with default `false`. -/
structure FormField : Type where
  name : String
  type : String
  label : Option String := none
  value : Option Value := none
  placeholder : Option String := none
  required : Bool := false
  disabled : Bool := false
  description : Option String := none
deriving DecidableEq

/-- Strip leading and trailing whitespace from a character list (JS
`String.prototype.trim` and the whitespace-skipping of `Number(s)`). -/
def trimChars (l : List Char) : List Char :=
  ((l.dropWhile Char.isWhitespace).reverse.dropWhile Char.isWhitespace).reverse

/-- Split a character list at every occurrence of the separator `c`
(JS `split` / `String.splitOn` for a one-character separator); the result
always has one more part than there are separators. -/
def splitOnChar (c : Char) : List Char → List (List Char)
  | [] => [[]]
  | x :: rest =>
      if x = c then [] :: splitOnChar c rest
      else
        match splitOnChar c rest with
        | [] => [[x]]
        | part :: parts => (x :: part) :: parts

/-- Digits of a decimal literal: `some` of the numeral when the character
list is nonempty and all ASCII digits, else `none`. -/
def parseNatDigits (l : List Char) : Option Nat :=
  if l ≠ [] ∧ l.all Char.isDigit then
    some (l.foldl (fun acc c => acc * 10 + (c.toNat - '0'.toNat)) 0)
  else none

/-- JS `Number(s)` on a string, restricted to integer literals: trims
whitespace, the empty (or all-whitespace) string coerces to 0, an
optionally signed run of digits to its value, anything else to NaN
(`none`). -/
def jsStringToNumber (s : String) : Option Int :=
  match trimChars s.toList with
  | [] => some 0
  | '+' :: rest => (parseNatDigits rest).map (fun n => (n : Int))
  | '-' :: rest => (parseNatDigits rest).map (fun n => -(n : Int))
  | l => (parseNatDigits l).map (fun n => (n : Int))

/-- JS `Number(v)` on a present value: numbers are themselves, booleans
coerce to 0/1, strings via `jsStringToNumber`. -/
def jsNumber : Value → Option Int
  | .str s => jsStringToNumber s
  | .num n => some n
  | .bool b => some (if b then 1 else 0)

/-- JS `Number(v)` on a possibly absent value: `Number(undefined)` is NaN. -/
def jsNumberCoerce : Option Value → Option Int
  | none => none
  | some v => jsNumber v

/-- Whether a character list has a `'.'` that is neither its first nor its
last element (the shape `X.Y` with `X`, `Y` nonempty). -/
def hasInternalDot (l : List Char) : Bool :=
  (List.range l.length).any (fun i =>
    l.getD i ' ' = '.' && i ≠ 0 && i + 1 ≠ l.length)

/-- The `emailRegex` of the `contact` refinement in the source
(line 68, `^[^\s@]+@[^\s@]+\.[^\s@]+$`): exactly one `@`, no whitespace,
a nonempty local part, and a domain of shape `X.Y` with `X`, `Y`
nonempty. -/
def emailTest (s : String) : Bool :=
  match splitOnChar '@' s.toList with
  | [lp, dom] =>
      !lp.isEmpty && lp.all (fun c => !c.isWhitespace) &&
      dom.all (fun c => !c.isWhitespace) &&
      hasInternalDot dom
  | _ => false

/-- Drop one leading character satisfying `p`, if present (the `?`
quantifier on a character class whose class is disjoint from what
follows it in the pattern). -/
def dropOptChar (p : Char → Bool) : List Char → List Char
  | [] => []
  | c :: rest => if p c then rest else c :: rest

/-- Consume exactly `n` leading ASCII digits, returning the remainder. -/
def takeDigits : Nat → List Char → Option (List Char)
  | 0, l => some l
  | _ + 1, [] => none
  | n + 1, c :: rest => if c.isDigit then takeDigits n rest else none

/-- A separator of the phone pattern: `[-\s.]`. -/
def isSepChar (c : Char) : Bool := c = '-' || c.isWhitespace || c = '.'

/-- The `phoneRegex` used for `tel` fields and the `contact` refinement
(lines 49 and 69, `^[\+]?[(]?[0-9]{3}[)]?[-\s\.]?[0-9]{3}[-\s\.]?[0-9]{4,6}$`).
Every optional piece's character class is disjoint from the class that
follows it, so the regex is matched by this deterministic scan. -/
def phoneTest (s : String) : Bool :=
  let l0 := dropOptChar (fun c => c = '(') (dropOptChar (fun c => c = '+') s.toList)
  match takeDigits 3 l0 with
  | none => false
  | some l1 =>
    let l2 := dropOptChar isSepChar (dropOptChar (fun c => c = ')') l1)
    match takeDigits 3 l2 with
    | none => false
    | some l3 =>
      let l4 := dropOptChar isSepChar l3
      decide (4 ≤ l4.length) && decide (l4.length ≤ 6) && l4.all Char.isDigit

/-- Character class of the local part of the zod v3 email pattern
(`[A-Za-z0-9_'+\-\.]`; 39 is the apostrophe code point). -/
def zodLocalChar (c : Char) : Bool :=
  c.isAlphanum || c = '_' || c = '+' || c = '-' || c = '.' || c.toNat = 39

/-- Character class allowed as the last local-part character of the zod v3
email pattern (`[A-Za-z0-9_+-]`). -/
def zodLocalEndChar (c : Char) : Bool :=
  c.isAlphanum || c = '_' || c = '+' || c = '-'

/-- A domain label of the zod v3 email pattern: `[A-Za-z0-9][A-Za-z0-9\-]*`. -/
def zodDomainLabel (l : List Char) : Bool :=
  match l with
  | [] => false
  | c :: rest => c.isAlphanum && rest.all (fun d => d.isAlphanum || d = '-')

/-- The top-level-domain piece of the zod v3 email pattern: `[A-Za-z]{2,}`. -/
def zodTld (l : List Char) : Bool :=
  decide (2 ≤ l.length) && l.all Char.isAlpha

/-- Whether a character list contains two consecutive dots (the negative
lookahead `(?!.*\.\.)` of the zod v3 email pattern). -/
def hasDoubleDot : List Char → Bool
  | [] => false
  | [_] => false
  | a :: b :: rest => (a = '.' && b = '.') || hasDoubleDot (b :: rest)

/-- The zod v3 `z.string().email()` pattern
`^(?!\.)(?!.*\.\.)([A-Za-z0-9_'+\-\.]*)[A-Za-z0-9_+-]@([A-Za-z0-9][A-Za-z0-9\-]*\.)+[A-Za-z]{2,}$`:
no leading dot, no double dot, a nonempty local part over the local class
ending in the restricted class, one `@`, one or more domain labels each
followed by a dot, and an alphabetic TLD of length at least 2. -/
def zodEmailTest (s : String) : Bool :=
  let cs := s.toList
  (match cs with | '.' :: _ => false | _ => true) &&
  !hasDoubleDot cs &&
  match splitOnChar '@' cs with
  | [lp, dom] =>
      (match lp.getLast? with
       | some c => zodLocalEndChar c
       | none => false) &&
      lp.all zodLocalChar &&
      (let parts := splitOnChar '.' dom
       decide (2 ≤ parts.length) &&
       parts.dropLast.all (fun p => zodDomainLabel p) &&
       (match parts.getLast? with
        | some t => zodTld t
        | none => false))
  | _ => false

deriving instance DecidableEq for Except

/-- A zod validator: parses a possibly absent input value into a possibly
absent output value, or fails with an issue message. -/
def Checker : Type := Option Value → Except String (Option Value)

/-- `z.string()` followed by string-level checks / transforms `check`:
a missing input fails with zod's "Required", a non-string input fails with
the invalid-type message, a string is passed to `check`. -/
def zString (check : String → Except String String) : Checker := fun v =>
  match v with
  | some (.str s) =>
      match check s with
      | .ok t => .ok (some (.str t))
      | .error m => .error m
  | none => .error "Required"
  | some _ => .error "Invalid input: expected string"

/-- `.optional()`: a missing input parses to a missing output, any present
input is handed to the wrapped validator. -/
def zOptional (c : Checker) : Checker := fun v =>
  match v with
  | none => .ok none
  | some x => c (some x)

/-- `z.boolean()`: accepts exactly booleans. -/
def zBoolean : Checker := fun v =>
  match v with
  | some (.bool b) => .ok (some (.bool b))
  | none => .error "Required"
  | some _ => .error "Invalid input: expected boolean"

/-- `z.string().email(msg)` with the zod v3 email pattern. -/
def zEmailRule (msg : String) : Checker :=
  zString (fun s => if zodEmailTest s then .ok s else .error msg)

/-- `z.string().regex(phoneRegex, msg)`. -/
def zTelRule (msg : String) : Checker :=
  zString (fun s => if phoneTest s then .ok s else .error msg)

/-- `z.string().trim().min(1, msg)`: the output is the trimmed string and
must be nonempty. -/
def zTrimMin1 (msg : String) : Checker :=
  zString (fun s =>
    let t := trimChars s.toList
    if 1 ≤ t.length then .ok (String.mk t) else .error msg)

/-- Bare `z.string()` (the optional default branch): any string passes. -/
def zAnyString : Checker := zString (fun s => .ok s)

/-- `z.coerce.number(...).min(lo, minMsg).max(hi, maxMsg)`: the input is
coerced with JS `Number`; NaN fails with `invalidMsg` (zod `invalid_type`),
out-of-bounds values fail with the bound's message, and the output is the
coerced number. -/
def zCoerceNum (invalidMsg : String) (lo hi : Int) (minMsg maxMsg : String) : Checker :=
  fun v =>
    match jsNumberCoerce v with
    | none => .error invalidMsg
    | some n =>
        if n < lo then .error minMsg
        else if n > hi then .error maxMsg
        else .ok (some (.num n))

/-- The synthetic `contact` validator (source lines 66-71):
`z.string().refine(value => emailRegex.test(value) || phoneRegex.test(value), msg)`. -/
def contactChecker : Checker :=
  zString (fun s =>
    if emailTest s || phoneTest s then .ok s
    else .error "Please enter a valid email or phone number")

/-- `field.label || field.name` (JS truthiness on the optional label). -/
def labelOrName (field : FormField) : String :=
  match field.label with
  | some l => if l = "" then field.name else l
  | none => field.name

/-- The validator chosen by the `switch (field.type)` in
`createValidationSchema` (source lines 30-61).  A JS `switch` over string
literals is an equality chain, embedded as nested `if`. -/
def fieldValidator (field : FormField) : Checker :=
  if field.type = "email" then
    if field.required then zEmailRule "Invalid email format"
    else zOptional (zEmailRule "Invalid email format")
  else if field.type = "number" then
    if field.name = "age" then
      if field.required then
        zCoerceNum "Age must be a number" 1 120
          "Age must be at least 1" "Age must be less than 120"
      else
        zOptional (zCoerceNum "Expected number, received nan" 1 120
          "Number must be greater than or equal to 1"
          "Number must be less than or equal to 120")
    else
      if field.required then
        zCoerceNum "Expected number, received nan" 1 100
          "Number must be greater than or equal to 1"
          "Number must be less than or equal to 100"
      else
        zOptional (zCoerceNum "Expected number, received nan" 1 100
          "Number must be greater than or equal to 1"
          "Number must be less than or equal to 100")
  else if field.type = "tel" then
    if field.required then zTelRule "Invalid phone number format"
    else zOptional (zTelRule "Invalid phone number format")
  else if field.type = "checkbox" then
    zOptional zBoolean
  else
    if field.required then zTrimMin1 (labelOrName field ++ " is required")
    else zOptional zAnyString

/-- JS object property assignment `m[k] = v`: overwrite the value of an
existing key in place, else append the key. -/
def setKey {α : Type} : List (String × α) → String → α → List (String × α)
  | [], k, v => [(k, v)]
  | (k1, v1) :: rest, k, v =>
      if k1 = k then (k, v) :: rest else (k1, v1) :: setKey rest k v

/-- JS object property read `m[k]`. -/
def getKey {α : Type} : List (String × α) → String → Option α
  | [], _ => none
  | (k1, v) :: rest, k => if k1 = k then some v else getKey rest k

/-- The keys of a record. -/
def keysOf {α : Type} (m : List (String × α)) : List String :=
  m.map Prod.fst

/-- `createValidationSchema` (source lines 24-74): one validator per
descriptor, keyed by `name`, then the synthetic `contact` validator. -/
def createValidationSchema (fields : List FormField) : List (String × Checker) :=
  let schemaFields :=
    fields.foldl (fun acc field => setKey acc field.name (fieldValidator field)) []
  setKey schemaFields "contact" contactChecker

/-- The initial value the `defaultValues` reducer derives for one
descriptor (source lines 111-113):
`field.type === 'checkbox' ? !!field.value : field.value || ''`. -/
def deriveDefault (field : FormField) : Value :=
  if field.type = "checkbox" then .bool (truthyOpt field.value)
  else
    match field.value with
    | some v => if truthy v then v else .str ""
    | none => .str ""

/-- `defaultValues` (source lines 108-116): the `reduce` over the
descriptor list. -/
def defaultValues (fields : List FormField) : List (String × Value) :=
  fields.foldl (fun acc field => setKey acc field.name (deriveDefault field)) []

/-- The Live Value Map: the form's current values, `none` where a field
has no entry (JS `undefined`). -/
def LiveMap : Type := String → Option Value

/-- The per-field issues of validating a live value map against a ruleset
(zod `safeParse` of the `z.object`): the entries whose validator rejects
the map's value at their key.  Validation succeeds iff this list is
empty. -/
def runRules (rules : List (String × Checker)) (vals : LiveMap) : List (String × String) :=
  rules.filterMap (fun p =>
    match p.2 (vals p.1) with
    | .error m => some (p.1, m)
    | .ok _ => none)

/-- The parsed output object of a successful validation: each rule's key
mapped to its validator's (coerced) output on the map's value. -/
def parseRules (rules : List (String × Checker)) (vals : LiveMap) :
    List (String × Option Value) :=
  rules.filterMap (fun p =>
    match p.2 (vals p.1) with
    | .ok out => some (p.1, out)
    | .error _ => none)

/-- Property read `data[k]` on the parsed output: a missing key and a key
parsed to `undefined` both read as `undefined`. -/
def getOutput (data : List (String × Option Value)) (k : String) : Option Value :=
  match getKey data k with
  | some (some v) => some v
  | _ => none

/-- `onSubmit` (source lines 153-160) without the network call: the list
handed to the mutation, `formFields.map(field => ({...field, value: data[field.name]}))`. -/
def onSubmit (fields : List FormField) (data : List (String × Option Value)) :
    List FormField :=
  fields.map (fun field => { field with value := getOutput data field.name })

/-- `handleSubmit(onSubmit)` (react-hook-form with the zod resolver,
source lines 137-148 and 182): validate the full live value map; when some
rule fails, surface errors, leave the live values as they are and make no
persistence call (`none`); when all rules pass, hand the merged descriptor
list to the mutation. -/
def handleSubmit (fields : List FormField) (vals : LiveMap) :
    LiveMap × Option (List FormField) :=
  let rules := createValidationSchema fields
  if runRules rules vals = [] then
    (vals, some (onSubmit fields (parseRules rules vals)))
  else (vals, none)

/-- `showPhoneEmail` (source lines 150-151):
`age && Number(age) > 18`, with `age = watch('age')`. -/
def showPhoneEmail (age : Option Value) : Bool :=
  truthyOpt age &&
    (match jsNumberCoerce age with
     | some n => decide (18 < n)
     | none => false)

/-- The fetched descriptors actually rendered (source lines 186-187): the
render loop skips any descriptor whose `name` is `contact`. -/
def renderedDescriptors (fields : List FormField) : List FormField :=
  fields.filter (fun f => f.name ≠ "contact")

/-- The names of all rendered controls: one per rendered descriptor, plus
the synthetic `contact` control exactly when `showPhoneEmail` holds
(source lines 264-305). -/
def renderedNames (fields : List FormField) (age : Option Value) : List String :=
  (renderedDescriptors fields).map FormField.name ++
    (if showPhoneEmail age then ["contact"] else [])

/-- A demonstration descriptor list: one required text field with a
current value, as in the reference collaborator's data. -/
def demoFields : List FormField :=
  [{ name := "u", type := "text", required := true, value := some (Value.str "shadcn") }]

/-- A demonstration live value map: the text field holds an untrimmed
edit and the synthetic `contact` holds a valid email address. -/
def demoVals : LiveMap := fun k =>
  if k = "contact" then some (Value.str "user@example.com")
  else if k = "u" then some (Value.str " shadcn ") else none

/-- Reading back the key just written. -/
theorem getKey_setKey_self {α : Type} (m : List (String × α)) (k : String) (v : α) :
    getKey (setKey m k v) k = some v := by
  induction m with
  | nil => simp [setKey, getKey]
  | cons p rest ih =>
    obtain ⟨k1, v1⟩ := p
    by_cases h : k1 = k
    · simp [setKey, h, getKey]
    · simp [setKey, h, getKey, ih]

/-- Writing one key does not change the value read at another. -/
theorem getKey_setKey_ne {α : Type} (m : List (String × α)) (k v : _) (k2 : String)
    (h : k2 ≠ k) : getKey (setKey m k v) k2 = getKey m k2 := by
  induction m with
  | nil => simp [setKey, getKey, Ne.symm h]
  | cons p rest ih =>
    obtain ⟨k1, v1⟩ := p
    by_cases h1 : k1 = k
    · subst h1
      simp [setKey, getKey, Ne.symm h]
    · simp [setKey, h1, getKey, ih]

/-- The written pair is an entry of the updated record. -/
theorem mem_setKey_self {α : Type} (m : List (String × α)) (k : String) (v : α) :
    (k, v) ∈ setKey m k v := by
  induction m with
  | nil => simp [setKey]
  | cons p rest ih =>
    obtain ⟨k1, v1⟩ := p
    by_cases h : k1 = k
    · simp [setKey, h]
    · simp only [setKey, if_neg h, List.mem_cons]
      exact Or.inr ih

/-- The keys after a write are the written key together with the old keys. -/
theorem mem_keysOf_setKey {α : Type} (m : List (String × α)) (k : String) (v : α)
    (a : String) : a ∈ keysOf (setKey m k v) ↔ a = k ∨ a ∈ keysOf m := by
  induction m with
  | nil => simp [setKey, keysOf]
  | cons p rest ih =>
    obtain ⟨k1, v1⟩ := p
    by_cases h : k1 = k
    · subst h
      simp [setKey, keysOf]
    · simp only [setKey, if_neg h, keysOf, List.map_cons, List.mem_cons] at ih ⊢
      rw [ih]
      tauto

/-- Writing preserves key distinctness. -/
theorem nodup_keysOf_setKey {α : Type} (m : List (String × α)) (k : String) (v : α)
    (h : (keysOf m).Nodup) : (keysOf (setKey m k v)).Nodup := by
  induction m with
  | nil => simp [setKey, keysOf]
  | cons p rest ih =>
    obtain ⟨k1, v1⟩ := p
    simp only [keysOf, List.map_cons, List.nodup_cons] at h
    by_cases hk : k1 = k
    · subst hk
      simpa [setKey, keysOf] using h
    · simp only [setKey, if_neg hk, keysOf, List.map_cons, List.nodup_cons]
      refine ⟨fun hmem => ?_, ih h.2⟩
      rcases (mem_keysOf_setKey rest k v k1).mp hmem with h1 | h1
      · exact hk h1
      · exact h.1 h1

/-- A fold of per-descriptor writes leaves every key outside the
descriptor names unchanged. -/
theorem getKey_foldl_setKey_notmem {α : Type} (g : FormField → α) :
    ∀ (fields : List FormField) (acc : List (String × α)) (k : String),
      k ∉ fields.map FormField.name →
      getKey (fields.foldl (fun a f => setKey a f.name (g f)) acc) k = getKey acc k := by
  intro fields
  induction fields with
  | nil => intro acc k _; rfl
  | cons f rest ih =>
    intro acc k h
    simp only [List.map_cons, List.mem_cons] at h
    push_neg at h
    rw [List.foldl_cons, ih _ k h.2, getKey_setKey_ne _ _ _ _ h.1]

/-- With distinct descriptor names, a fold of per-descriptor writes maps
each descriptor's name to that descriptor's image. -/
theorem getKey_foldl_setKey_mem {α : Type} (g : FormField → α) :
    ∀ (fields : List FormField) (acc : List (String × α)),
      (fields.map FormField.name).Nodup →
      ∀ f ∈ fields,
        getKey (fields.foldl (fun a x => setKey a x.name (g x)) acc) f.name = some (g f) := by
  intro fields
  induction fields with
  | nil => intro acc _ f hf; cases hf
  | cons f0 rest ih =>
    intro acc hnd f hf
    simp only [List.map_cons, List.nodup_cons] at hnd
    rw [List.foldl_cons]
    rcases List.mem_cons.mp hf with rfl | hmem
    · rw [getKey_foldl_setKey_notmem g rest _ f.name hnd.1, getKey_setKey_self]
    · exact ih _ hnd.2 f hmem

/-- The keys produced by a fold of per-descriptor writes are the
descriptor names together with the keys of the accumulator. -/
theorem mem_keysOf_foldl_setKey {α : Type} (g : FormField → α) :
    ∀ (fields : List FormField) (acc : List (String × α)) (a : String),
      a ∈ keysOf (fields.foldl (fun ac x => setKey ac x.name (g x)) acc)
        ↔ a ∈ fields.map FormField.name ∨ a ∈ keysOf acc := by
  intro fields
  induction fields with
  | nil => intro acc a; simp
  | cons f0 rest ih =>
    intro acc a
    rw [List.foldl_cons, ih, mem_keysOf_setKey]
    simp only [List.map_cons, List.mem_cons]
    tauto

/-- A fold of per-descriptor writes preserves key distinctness. -/
theorem nodup_keysOf_foldl_setKey {α : Type} (g : FormField → α) :
    ∀ (fields : List FormField) (acc : List (String × α)),
      (keysOf acc).Nodup →
      (keysOf (fields.foldl (fun ac x => setKey ac x.name (g x)) acc)).Nodup := by
  intro fields
  induction fields with
  | nil => intro acc h; exact h
  | cons f0 rest ih =>
    intro acc h
    rw [List.foldl_cons]
    exact ih _ (nodup_keysOf_setKey _ _ _ h)

/-- C1 (counterexample): the Default Value Deriver does not keep a present
numeric value 0 as-is — `field.value || ''` replaces every present falsy
value with the empty string, so a text descriptor with `value` 0 derives
the empty string, not 0. -/
theorem claim_C1_counterexample :
    getKey (defaultValues [{ name := "x", type := "text", value := some (Value.num 0) }]) "x"
      = some (Value.str "")
    ∧ Value.str "" ≠ Value.num 0 :=
  ⟨by decide, by decide⟩

/-- C1 (amended): for every descriptor list with distinct names, the
Default Value Deriver maps each checkbox descriptor's name to its `value`
coerced to boolean (false when absent), and every other descriptor's name
to its `value` when that value is present and truthy, and to the empty
string otherwise — so a present falsy value (the number 0, `false`, or the
empty string) derives the empty string; in particular a present
empty-string value is kept as-is but a present numeric 0 is not. -/
theorem claim_C1 (fields : List FormField) (h : (fields.map FormField.name).Nodup)
    (f : FormField) (hf : f ∈ fields) :
    getKey (defaultValues fields) f.name =
      some (if f.type = "checkbox" then Value.bool (truthyOpt f.value)
            else match f.value with
                 | some v => if truthy v then v else Value.str ""
                 | none => Value.str "") := by
  unfold defaultValues
  rw [getKey_foldl_setKey_mem deriveDefault fields [] h f hf]
  rfl

/-- C1 witness: a text descriptor with the present truthy value "shadcn"
derives "shadcn". -/
theorem claim_C1_witness :
    getKey (defaultValues
        [{ name := "Username", type := "text", value := some (Value.str "shadcn") }])
      "Username" = some (Value.str "shadcn") :=
  claim_C1 [{ name := "Username", type := "text", value := some (Value.str "shadcn") }]
    (by decide)
    { name := "Username", type := "text", value := some (Value.str "shadcn") }
    (by decide)

/-- C2: whenever the live value map has no `contact` entry or an
empty-string `contact` entry — in particular for any `age`, rendered or
not — full validation against the built ruleset reports an error on
`contact`, and submission makes no persistence call. -/
theorem claim_C2 (fields : List FormField) (vals : LiveMap)
    (h : vals "contact" = none ∨ vals "contact" = some (Value.str "")) :
    (∃ m, ("contact", m) ∈ runRules (createValidationSchema fields) vals)
    ∧ (handleSubmit fields vals).2 = none := by
  have hmem : ("contact", contactChecker) ∈ createValidationSchema fields := by
    unfold createValidationSchema
    exact mem_setKey_self _ _ _
  have herr : ∃ m, contactChecker (vals "contact") = Except.error m := by
    rcases h with h | h <;> rw [h]
    · exact ⟨"Required", rfl⟩
    · exact ⟨"Please enter a valid email or phone number", rfl⟩
  obtain ⟨m, hm⟩ := herr
  have hrr : ("contact", m) ∈ runRules (createValidationSchema fields) vals := by
    refine List.mem_filterMap.mpr ⟨("contact", contactChecker), hmem, ?_⟩
    simp [hm]
  have hne : runRules (createValidationSchema fields) vals ≠ [] :=
    List.ne_nil_of_mem hrr
  exact ⟨⟨m, hrr⟩, by simp [handleSubmit, hne]⟩

/-- C2 witness: with an entirely empty live value map (so `contact`
absent), validation fails on `contact` and nothing is persisted. -/
theorem claim_C2_witness :
    (∃ m, ("contact", m) ∈ runRules (createValidationSchema []) (fun _ => none))
    ∧ (handleSubmit [] (fun _ => none)).2 = none :=
  claim_C2 [] (fun _ => none) (Or.inl rfl)

/-- C3: for every descriptor list with distinct names, the Schema
Builder's ruleset has exactly the descriptor names plus the synthetic
"contact" as its keys, each exactly once; the builder is a total function
(it never fails), and a descriptor of unknown type gets the default
generic-string rule. -/
theorem claim_C3 (fields : List FormField) (h : (fields.map FormField.name).Nodup) :
    (∀ k, k ∈ keysOf (createValidationSchema fields)
        ↔ k ∈ fields.map FormField.name ∨ k = "contact")
    ∧ (keysOf (createValidationSchema fields)).Nodup
    ∧ (∀ f ∈ fields,
        f.type ≠ "email" → f.type ≠ "number" → f.type ≠ "tel" → f.type ≠ "checkbox" →
        fieldValidator f
          = (if f.required then zTrimMin1 (labelOrName f ++ " is required")
             else zOptional zAnyString)) := by
  refine ⟨?_, ?_, ?_⟩
  · intro k
    simp only [createValidationSchema]
    rw [mem_keysOf_setKey, mem_keysOf_foldl_setKey]
    simp only [keysOf, List.map_nil, List.not_mem_nil, or_false]
    tauto
  · simp only [createValidationSchema]
    exact nodup_keysOf_setKey _ _ _
      (nodup_keysOf_foldl_setKey _ _ _ (by simp [keysOf]))
  · intro f _ h1 h2 h3 h4
    unfold fieldValidator
    rw [if_neg h1, if_neg h2, if_neg h3, if_neg h4]

/-- C3 witness: with a text descriptor and a descriptor of unknown type,
the ruleset's keys include the synthetic "contact". -/
theorem claim_C3_witness :
    "contact" ∈ keysOf (createValidationSchema
      [{ name := "a", type := "text" }, { name := "b", type := "mystery" }]) :=
  ((claim_C3 [{ name := "a", type := "text" }, { name := "b", type := "mystery" }]
      (by decide)).1 "contact").mpr (Or.inr rfl)

/-- C6: whenever some rule reports an error on the live value map,
submitting performs no persistence call and returns the live value map
exactly as it was. -/
theorem claim_C6 (fields : List FormField) (vals : LiveMap)
    (h : ∃ e, e ∈ runRules (createValidationSchema fields) vals) :
    handleSubmit fields vals = (vals, none) := by
  obtain ⟨e, he⟩ := h
  have hne : runRules (createValidationSchema fields) vals ≠ [] :=
    List.ne_nil_of_mem he
  simp [handleSubmit, hne]

/-- C6 witness: an out-of-range required age (121) with a valid contact
value blocks persistence and leaves the live map unchanged. -/
theorem claim_C6_witness :
    handleSubmit [{ name := "age", type := "number", required := true }]
      (fun k => if k = "age" then some (Value.num 121)
                else if k = "contact" then some (Value.str "a@b.co") else none)
      = (fun k => if k = "age" then some (Value.num 121)
                  else if k = "contact" then some (Value.str "a@b.co") else none, none) :=
  claim_C6 _ _ ⟨("age", "Age must be less than 120"), by decide⟩

/-- C7: the synthetic `contact` control is rendered iff the live `age`
value is present, truthy, and coerces to a number strictly greater than
18 (age 19 shows it; 18, a non-numeric value such as "abc", or an absent
age hide it); and a fetched descriptor named `contact` is never among the
rendered descriptors. -/
theorem claim_C7 (fields : List FormField) (age : Option Value) :
    ("contact" ∈ renderedNames fields age ↔ showPhoneEmail age = true)
    ∧ (showPhoneEmail age = true
        ↔ ∃ v n, age = some v ∧ truthy v = true ∧ jsNumber v = some n ∧ 18 < n)
    ∧ (∀ f, f ∈ renderedDescriptors fields ↔ f ∈ fields ∧ f.name ≠ "contact")
    ∧ showPhoneEmail (some (Value.str "19")) = true
    ∧ showPhoneEmail (some (Value.str "18")) = false
    ∧ showPhoneEmail (some (Value.str "abc")) = false
    ∧ showPhoneEmail none = false := by
  refine ⟨?_, ?_, ?_, by decide, by decide, by decide, by decide⟩
  · constructor
    · intro hmem
      rcases List.mem_append.mp hmem with hA | hB
      · rcases List.mem_map.mp hA with ⟨f, hf, hname⟩
        have hfil := (List.mem_filter.mp hf).2
        simp [hname] at hfil
      · by_cases hs : showPhoneEmail age = true
        · exact hs
        · simp [hs] at hB
    · intro hs
      refine List.mem_append.mpr (Or.inr ?_)
      simp [hs]
  · cases age with
    | none => simp [showPhoneEmail, truthyOpt]
    | some v =>
      cases hn : jsNumber v with
      | none => simp [showPhoneEmail, truthyOpt, jsNumberCoerce, hn]
      | some n => simp [showPhoneEmail, truthyOpt, jsNumberCoerce, hn, and_assoc]
  · intro f
    simp [renderedDescriptors, List.mem_filter]

/-- C8: the synthetic `contact` rule is present in every built ruleset and
accepts exactly the strings matching the source's email pattern or phone
pattern, failing all others with "Please enter a valid email or phone
number"; "user@example.com" and "555-123-4567" pass, "not-valid" fails. -/
theorem claim_C8 (fields : List FormField) :
    getKey (createValidationSchema fields) "contact" = some contactChecker
    ∧ (∀ s : String,
        contactChecker (some (Value.str s))
          = (if emailTest s || phoneTest s then Except.ok (some (Value.str s))
             else Except.error "Please enter a valid email or phone number"))
    ∧ contactChecker (some (Value.str "user@example.com"))
        = Except.ok (some (Value.str "user@example.com"))
    ∧ contactChecker (some (Value.str "555-123-4567"))
        = Except.ok (some (Value.str "555-123-4567"))
    ∧ contactChecker (some (Value.str "not-valid"))
        = Except.error "Please enter a valid email or phone number" := by
  refine ⟨?_, ?_, by decide, by decide, by decide⟩
  · simp only [createValidationSchema]
    exact getKey_setKey_self _ _ _
  · intro s
    simp only [contactChecker, zString]
    by_cases hcond : (emailTest s || phoneTest s) = true
    · rw [if_pos hcond, if_pos hcond]
    · rw [if_neg hcond, if_neg hcond]

/-- C9: the rule built for every checkbox descriptor is the optional
boolean, whatever the `required` flag says, so both the absent and the
unchecked (`false`) states pass validation. -/
theorem claim_C9 (f : FormField) (h : f.type = "checkbox") :
    fieldValidator f = zOptional zBoolean
    ∧ fieldValidator f none = Except.ok none
    ∧ fieldValidator f (some (Value.bool false))
        = Except.ok (some (Value.bool false)) := by
  have h1 : fieldValidator f = zOptional zBoolean := by
    unfold fieldValidator
    rw [h]
    rfl
  refine ⟨h1, ?_, ?_⟩ <;> rw [h1] <;> rfl

/-- C9 witness: a checkbox descriptor with `required` set still validates
the absent and unchecked states successfully. -/
theorem claim_C9_witness :
    fieldValidator { name := "terms", type := "checkbox", required := true }
        = zOptional zBoolean
    ∧ fieldValidator { name := "terms", type := "checkbox", required := true } none
        = Except.ok none
    ∧ fieldValidator { name := "terms", type := "checkbox", required := true }
        (some (Value.bool false)) = Except.ok (some (Value.bool false)) :=
  claim_C9 { name := "terms", type := "checkbox", required := true } rfl

/-- C4 (counterexample): for a non-required `age` number descriptor the
non-numeric failure does not carry the custom message — the source
attaches the `errorMap` only in the required branch, so "abc" fails with
the library default numeric-coercion message instead of "Age must be a
number". -/
theorem claim_C4_counterexample :
    fieldValidator { name := "age", type := "number" } (some (Value.str "abc"))
      = Except.error "Expected number, received nan"
    ∧ ("Expected number, received nan" : String) ≠ "Age must be a number" :=
  ⟨by decide, by decide⟩

/-- C4 (amended): for a descriptor with type `number` and name `age` the
rule coerces the input and accepts exactly the present values coercing
into [1,120]; when the descriptor is required, 121 fails, 18 passes and a
non-numeric value such as "abc" fails with the custom message "Age must be
a number", while for a non-required `age` descriptor "abc" fails with the
library default numeric-coercion message; every other `number` descriptor
accepts exactly the present values coercing into [1,100]. -/
theorem claim_C4 (f : FormField) (hty : f.type = "number") :
    (f.name = "age" →
      (∀ v : Value,
        (∃ n, fieldValidator f (some v) = Except.ok (some (Value.num n)))
          ↔ ∃ n, jsNumber v = some n ∧ 1 ≤ n ∧ n ≤ 120)
      ∧ (f.required = true →
          fieldValidator f (some (Value.str "abc")) = Except.error "Age must be a number"
          ∧ fieldValidator f (some (Value.num 121)) = Except.error "Age must be less than 120"
          ∧ fieldValidator f (some (Value.num 18)) = Except.ok (some (Value.num 18)))
      ∧ (f.required = false →
          fieldValidator f (some (Value.str "abc"))
            = Except.error "Expected number, received nan"))
    ∧ (f.name ≠ "age" →
        ∀ v : Value,
          (∃ n, fieldValidator f (some v) = Except.ok (some (Value.num n)))
            ↔ ∃ n, jsNumber v = some n ∧ 1 ≤ n ∧ n ≤ 100) := by
  have hz : ∀ (im mm xm : String) (lo hi : Int) (v : Value),
      (∃ n, zCoerceNum im lo hi mm xm (some v) = Except.ok (some (Value.num n)))
        ↔ ∃ n, jsNumber v = some n ∧ lo ≤ n ∧ n ≤ hi := by
    intro im mm xm lo hi v
    simp only [zCoerceNum, jsNumberCoerce]
    cases hn : jsNumber v with
    | none => simp
    | some n =>
      simp only [Option.some.injEq]
      split_ifs with h1 h2
      · constructor
        · rintro ⟨m, hm⟩; cases hm
        · rintro ⟨m, rfl, hlo, hhi⟩; omega
      · constructor
        · rintro ⟨m, hm⟩; cases hm
        · rintro ⟨m, rfl, hlo, hhi⟩; omega
      · constructor
        · rintro ⟨m, hm⟩
          refine ⟨n, rfl, by omega, by omega⟩
        · intro _; exact ⟨n, rfl⟩
  constructor
  · intro hage
    refine ⟨?_, ?_, ?_⟩
    · intro v
      cases hr : f.required with
      | true =>
        have hv : fieldValidator f
            = zCoerceNum "Age must be a number" 1 120
                "Age must be at least 1" "Age must be less than 120" := by
          unfold fieldValidator
          rw [hty, hage, hr]
          rfl
        rw [hv]
        exact hz _ _ _ 1 120 v
      | false =>
        have hv : fieldValidator f
            = zOptional (zCoerceNum "Expected number, received nan" 1 120
                "Number must be greater than or equal to 1"
                "Number must be less than or equal to 120") := by
          unfold fieldValidator
          rw [hty, hage, hr]
          rfl
        rw [hv]
        exact hz _ _ _ 1 120 v
    · intro hr
      have hv : fieldValidator f
          = zCoerceNum "Age must be a number" 1 120
              "Age must be at least 1" "Age must be less than 120" := by
        unfold fieldValidator
        rw [hty, hage, hr]
        rfl
      rw [hv]
      exact ⟨by decide, by decide, by decide⟩
    · intro hr
      have hv : fieldValidator f
          = zOptional (zCoerceNum "Expected number, received nan" 1 120
              "Number must be greater than or equal to 1"
              "Number must be less than or equal to 120") := by
        unfold fieldValidator
        rw [hty, hage, hr]
        rfl
      rw [hv]
      decide
  · intro hage v
    cases hr : f.required with
    | true =>
      have hv : fieldValidator f
          = zCoerceNum "Expected number, received nan" 1 100
              "Number must be greater than or equal to 1"
              "Number must be less than or equal to 100" := by
        unfold fieldValidator
        rw [hty, hr, if_neg hage]
        rfl
      rw [hv]
      exact hz _ _ _ 1 100 v
    | false =>
      have hv : fieldValidator f
          = zOptional (zCoerceNum "Expected number, received nan" 1 100
              "Number must be greater than or equal to 1"
              "Number must be less than or equal to 100") := by
        unfold fieldValidator
        rw [hty, hr, if_neg hage]
        rfl
      rw [hv]
      exact hz _ _ _ 1 100 v

/-- C4 witness: a required `age` number descriptor rejects "abc" with the
custom message, rejects 121 and accepts 18. -/
theorem claim_C4_witness :
    fieldValidator { name := "age", type := "number", required := true }
        (some (Value.str "abc")) = Except.error "Age must be a number"
    ∧ fieldValidator { name := "age", type := "number", required := true }
        (some (Value.num 121)) = Except.error "Age must be less than 120"
    ∧ fieldValidator { name := "age", type := "number", required := true }
        (some (Value.num 18)) = Except.ok (some (Value.num 18)) :=
  ((claim_C4 { name := "age", type := "number", required := true } rfl).1 rfl).2.1 rfl

/-- C5: on a submission that passes full validation, the list handed to
the persistence call has exactly one entry per fetched descriptor in the
same order, each entry equal to its descriptor with only `value` replaced
by the parsed (coerced) live value for that name; in particular no entry
for the synthetic `contact` field is added. -/
theorem claim_C5 (fields : List FormField) (vals : LiveMap)
    (h : runRules (createValidationSchema fields) vals = []) :
    (handleSubmit fields vals).2
      = some (onSubmit fields (parseRules (createValidationSchema fields) vals))
    ∧ (onSubmit fields (parseRules (createValidationSchema fields) vals)).length
        = fields.length
    ∧ (onSubmit fields (parseRules (createValidationSchema fields) vals)).map FormField.name
        = fields.map FormField.name
    ∧ ∀ i : Nat,
        (onSubmit fields (parseRules (createValidationSchema fields) vals))[i]?
          = (fields[i]?).map (fun f =>
              { f with value :=
                  getOutput (parseRules (createValidationSchema fields) vals) f.name }) := by
  refine ⟨by simp [handleSubmit, h], by simp [onSubmit], ?_, ?_⟩
  · unfold onSubmit
    rw [List.map_map]
    exact List.map_congr_left (fun f _ => rfl)
  · intro i
    simp [onSubmit]

/-- C5 witness: a valid submission of a required text field (with a valid
contact value) hands the merged descriptor list to the persistence call. -/
theorem claim_C5_witness :
    (handleSubmit demoFields demoVals).2
      = some (onSubmit demoFields (parseRules (createValidationSchema demoFields) demoVals)) :=
  (claim_C5 demoFields demoVals (by decide)).1

/-- C10: every non-required descriptor of type `email`, `tel` or `number`
rejects the present empty-string value (the optional wrapper only accepts
the absent value, which passes; for `number` the empty string coerces to
0 and fails the minimum of 1), while such a descriptor with no `value`
derives the empty string as its default. -/
theorem claim_C10 (f : FormField) (hreq : f.required = false)
    (hty : f.type = "email" ∨ f.type = "tel" ∨ f.type = "number") :
    (∃ m, fieldValidator f (some (Value.str "")) = Except.error m)
    ∧ fieldValidator f none = Except.ok none
    ∧ (f.value = none → deriveDefault f = Value.str "")
    ∧ jsStringToNumber "" = some 0 := by
  have hdefault : f.type ≠ "checkbox" → f.value = none → deriveDefault f = Value.str "" := by
    intro hne hval
    unfold deriveDefault
    rw [if_neg hne, hval]
  rcases hty with h | h | h
  · have hv : fieldValidator f = zOptional (zEmailRule "Invalid email format") := by
      unfold fieldValidator
      rw [h, hreq]
      rfl
    exact ⟨⟨"Invalid email format", by rw [hv]; rfl⟩, by rw [hv]; rfl,
      hdefault (by rw [h]; decide), rfl⟩
  · have hv : fieldValidator f = zOptional (zTelRule "Invalid phone number format") := by
      unfold fieldValidator
      rw [h, hreq]
      rfl
    exact ⟨⟨"Invalid phone number format", by rw [hv]; rfl⟩, by rw [hv]; rfl,
      hdefault (by rw [h]; decide), rfl⟩
  · by_cases hn : f.name = "age"
    · have hv : fieldValidator f
          = zOptional (zCoerceNum "Expected number, received nan" 1 120
              "Number must be greater than or equal to 1"
              "Number must be less than or equal to 120") := by
        unfold fieldValidator
        rw [h, hreq, hn]
        rfl
      exact ⟨⟨"Number must be greater than or equal to 1", by rw [hv]; rfl⟩,
        by rw [hv]; rfl, hdefault (by rw [h]; decide), rfl⟩
    · have hv : fieldValidator f
          = zOptional (zCoerceNum "Expected number, received nan" 1 100
              "Number must be greater than or equal to 1"
              "Number must be less than or equal to 100") := by
        unfold fieldValidator
        rw [h, hreq, if_neg hn]
        rfl
      exact ⟨⟨"Number must be greater than or equal to 1", by rw [hv]; rfl⟩,
        by rw [hv]; rfl, hdefault (by rw [h]; decide), rfl⟩

/-- C10 witness: a non-required email descriptor rejects the empty string,
accepts absence, and derives the empty string as its default. -/
theorem claim_C10_witness :
    (∃ m, fieldValidator { name := "work_email", type := "email" }
        (some (Value.str "")) = Except.error m)
    ∧ fieldValidator { name := "work_email", type := "email" } none = Except.ok none
    ∧ (({ name := "work_email", type := "email" } : FormField).value = none
        → deriveDefault { name := "work_email", type := "email" } = Value.str "")
    ∧ jsStringToNumber "" = some 0 :=
  claim_C10 { name := "work_email", type := "email" } rfl (Or.inl rfl)

end DynamicForm
